import Mathlib

/-
Shallow embedding of the chat-backend repository (src/main.py, src/schemas.py).

The document store is modelled as four typed collections (lists of records in
insertion order) plus a counter used to mint fresh ObjectId strings.  Each
HTTP handler of src/main.py becomes a Lean function from its parsed inputs and
the optional store handle (`db` may be `None`) to `Except HErr (output × Store)`;
a raised HTTPException or an unhandled Python exception is an `HErr` error and
leaves the store untouched.
-/

/-- A MongoDB ObjectId string: 24 hexadecimal characters (bson.ObjectId accepts
exactly this string form; anything else raises bson.errors.InvalidId). -/
def isHexChar (c : Char) : Bool :=
  (('0' ≤ c && c ≤ '9') || ('a' ≤ c && c ≤ 'f') || ('A' ≤ c && c ≤ 'F'))

def isValidObjectId (s : String) : Bool :=
  s.length == 24 && s.toList.all isHexChar

/-- ASCII lower-casing of one character. -/
def lowerChar (c : Char) : Char :=
  if 'A' ≤ c && c ≤ 'Z' then Char.ofNat (c.toNat + 32) else c

/-- ObjectId values compare by their 12 raw bytes, so two hex strings denote
the same ObjectId iff they agree up to case; we normalise to lower case. -/
def normId (s : String) : String := String.mk (s.toList.map lowerChar)

/-- Errors surfaced by a handler: `http` is a raised fastapi.HTTPException with
its status code and detail; `exn` is an unhandled Python exception (FastAPI
turns it into a 500 response). -/
inductive HErr where
  | http (status : Nat) (detail : String)
  | exn (msg : String)
  deriving DecidableEq, Repr

/-- Bare `ObjectId(s)` as used inside the handlers of src/main.py: a malformed
string raises bson.errors.InvalidId, which no handler catches. -/
def parseObjectId (s : String) : Except HErr String :=
  if isValidObjectId s then .ok (normId s) else .error (.exn "InvalidId")

/-- The `ObjectIdStr.oid` property of src/main.py lines 22-30: same parse, but
the failure is converted to HTTPException 400 "Invalid ID".  No endpoint of
src/main.py ever uses this class. -/
def ObjectIdStr_oid (s : String) : Except HErr String :=
  if isValidObjectId s then .ok (normId s) else .error (.http 400 "Invalid ID")

/-- Hex digit character for fresh-id generation. -/
def hexChar (n : Nat) : Char :=
  if n < 10 then Char.ofNat (48 + n) else Char.ofNat (87 + n)

/-- Fresh ObjectId string minted by the store for the n-th insert: the counter
written as 24 lower-case hex digits. -/
def genId (n : Nat) : String :=
  String.mk ((List.range 24).map (fun i => hexChar (n / 16 ^ (23 - i) % 16)))

/-- A document of the `user` collection (src/schemas.py `User`, plus the
store-assigned `_id`, kept here in string form). -/
structure UserDoc where
  oid : String
  name : String
  email : String
  avatar_url : Option String
  deriving DecidableEq, Repr

/-- A document of the `project` collection (src/schemas.py `Project`). -/
structure ProjectDoc where
  oid : String
  user_id : String
  name : String
  description : Option String
  deriving DecidableEq, Repr

/-- A document of the `chat` collection (src/schemas.py `Chat`).  `project_id`
is stored as the raw payload string. -/
structure ChatDoc where
  oid : String
  project_id : String
  title : String
  deriving DecidableEq, Repr

/-- A document of the `message` collection (src/schemas.py `Message`).
`created_at` is never populated by the creation paths and is omitted. -/
structure MessageDoc where
  oid : String
  chat_id : String
  role : String
  content : String
  deriving DecidableEq, Repr

/-- The document store: one list per collection, in insertion order, plus the
counter minting fresh ids. -/
structure Store where
  users : List UserDoc
  projects : List ProjectDoc
  chats : List ChatDoc
  messages : List MessageDoc
  nextId : Nat
  deriving DecidableEq, Repr

/-- Modelled from the spec: src/main.py imports `create_document` from
`database.py`, which is not among the provided source files.  Per the spec's
Document Store Adapter contract, `create(collectionName, record) -> idString`
inserts the record and returns a fresh id string, with no validation of the
record's foreign-key fields.  One typed instance per collection; this one
inserts into `user`. -/
def create_user_document (s : Store) (name email : String)
    (avatar_url : Option String) : String × Store :=
  let nid := genId s.nextId
  (nid, { s with users := s.users ++ [⟨nid, name, email, avatar_url⟩],
                 nextId := s.nextId + 1 })

/-- Modelled from the spec: `create_document` on the `project` collection. -/
def create_project_document (s : Store) (user_id name : String)
    (description : Option String) : String × Store :=
  let nid := genId s.nextId
  (nid, { s with projects := s.projects ++ [⟨nid, user_id, name, description⟩],
                 nextId := s.nextId + 1 })

/-- Modelled from the spec: `create_document` on the `chat` collection. -/
def create_chat_document (s : Store) (project_id title : String) :
    String × Store :=
  let nid := genId s.nextId
  (nid, { s with chats := s.chats ++ [⟨nid, project_id, title⟩],
                 nextId := s.nextId + 1 })

/-- Modelled from the spec: `create_document` on the `message` collection. -/
def create_message_document (s : Store) (chat_id role content : String) :
    String × Store :=
  let nid := genId s.nextId
  (nid, { s with messages := s.messages ++ [⟨nid, chat_id, role, content⟩],
                 nextId := s.nextId + 1 })

/-- Modelled from the spec: `get_documents(collection, filter)` of the absent
`database.py` returns the records matching an equality filter, in insertion
order.  Instance for `project` filtered by `user_id`. -/
def get_project_documents (s : Store) (user_id : String) : List ProjectDoc :=
  s.projects.filter (fun p => p.user_id == user_id)

/-- Modelled from the spec: `get_documents` on `chat` by raw `project_id`. -/
def get_chat_documents (s : Store) (project_id : String) : List ChatDoc :=
  s.chats.filter (fun c => c.project_id == project_id)

/-- Modelled from the spec: `get_documents` on `message` by raw `chat_id`. -/
def get_message_documents (s : Store) (chat_id : String) : List MessageDoc :=
  s.messages.filter (fun m => m.chat_id == chat_id)

/-- Request body of POST /auth/login (src/main.py `LoginRequest`). -/
structure LoginRequest where
  name : String
  email : String
  avatar_url : Option String
  deriving DecidableEq, Repr

/-- Request body of POST /projects (src/main.py `ProjectCreate`). -/
structure ProjectCreate where
  name : String
  description : Option String
  deriving DecidableEq, Repr

/-- Request body of POST /chats (src/main.py `ChatCreate`). -/
structure ChatCreate where
  project_id : String
  title : String
  deriving DecidableEq, Repr

/-- Request body of POST /messages (src/main.py `MessageCreate`). -/
structure MessageCreate where
  chat_id : String
  role : String
  content : String
  deriving DecidableEq, Repr

/-- Request body of POST /assistant/complete (src/main.py
`CompletionRequest`). -/
structure CompletionRequest where
  chat_id : String
  prompt : String
  deriving DecidableEq, Repr

/-- pymongo `update_one({"_id": tid}, {"$set": {"name": .., "avatar_url": ..}})`
on the `user` collection: rewrites the name and avatar_url of the first
document whose `_id` equals `tid`, leaving every other field and document
untouched (src/main.py line 53). -/
def updateUserFields (req : LoginRequest) : List UserDoc → String → List UserDoc
  | [], _ => []
  | d :: rest, tid =>
    if d.oid == tid then
      { d with name := req.name, avatar_url := req.avatar_url } :: rest
    else
      d :: updateUserFields req rest tid

/-- POST /auth/login (src/main.py lines 45-57): upsert the user by email. -/
def login (req : LoginRequest) (db : Option Store) :
    Except HErr (String × Store) :=
  match db with
  | none => .error (.http 500 "Database not configured")
  | some s =>
    match s.users.find? (fun d => d.email == req.email) with
    | some u => .ok (u.oid, { s with users := updateUserFields req s.users u.oid })
    | none =>
      let r := create_user_document s req.name req.email req.avatar_url
      .ok (r.1, r.2)

/-- POST /projects (src/main.py lines 66-72): insert with no validation of
`user_id`. -/
def create_project (payload : ProjectCreate) (user_id : String)
    (db : Option Store) : Except HErr (String × Store) :=
  match db with
  | none => .error (.http 500 "Database not configured")
  | some s =>
    let r := create_project_document s user_id payload.name payload.description
    .ok (r.1, r.2)

/-- GET /projects (src/main.py lines 75-83): list projects filtered by the raw
`user_id` string. -/
def list_projects (user_id : String) (db : Option Store) :
    Except HErr (List ProjectDoc × Store) :=
  match db with
  | none => .error (.http 500 "Database not configured")
  | some s => .ok (get_project_documents s user_id, s)

/-- POST /chats (src/main.py lines 92-101): parse `project_id` as an ObjectId
(unhandled exception on a malformed string), require a project with that id
AND the given `user_id` (404 "Project not found" otherwise), then insert the
chat with the raw payload fields. -/
def create_chat (payload : ChatCreate) (user_id : String) (db : Option Store) :
    Except HErr (String × Store) :=
  match db with
  | none => .error (.http 500 "Database not configured")
  | some s =>
    match parseObjectId payload.project_id with
    | .error e => .error e
    | .ok pid =>
      match s.projects.find? (fun p => p.oid == pid && p.user_id == user_id) with
      | none => .error (.http 404 "Project not found")
      | some _ =>
        let r := create_chat_document s payload.project_id payload.title
        .ok (r.1, r.2)

/-- GET /chats (src/main.py lines 104-115): same access check as chat
creation, then list chats filtered by the raw `project_id` string. -/
def list_chats (project_id user_id : String) (db : Option Store) :
    Except HErr (List ChatDoc × Store) :=
  match db with
  | none => .error (.http 500 "Database not configured")
  | some s =>
    match parseObjectId project_id with
    | .error e => .error e
    | .ok pid =>
      match s.projects.find? (fun p => p.oid == pid && p.user_id == user_id) with
      | none => .error (.http 404 "Project not found")
      | some _ => .ok (get_chat_documents s project_id, s)

/-- POST /messages (src/main.py lines 125-137): look up the chat by id
(404 "Chat not found" if absent), then the chat's project owned by `user_id`
(403 "Forbidden" if absent), then insert the message. -/
def create_message (payload : MessageCreate) (user_id : String)
    (db : Option Store) : Except HErr (String × Store) :=
  match db with
  | none => .error (.http 500 "Database not configured")
  | some s =>
    match parseObjectId payload.chat_id with
    | .error e => .error e
    | .ok cid =>
      match s.chats.find? (fun c => c.oid == cid) with
      | none => .error (.http 404 "Chat not found")
      | some chat =>
        match parseObjectId chat.project_id with
        | .error e => .error e
        | .ok pid =>
          match s.projects.find? (fun p => p.oid == pid && p.user_id == user_id) with
          | none => .error (.http 403 "Forbidden")
          | some _ =>
            let r := create_message_document s payload.chat_id payload.role
              payload.content
            .ok (r.1, r.2)

/-- GET /messages (src/main.py lines 140-153): same chain check as message
creation, then list messages filtered by the raw `chat_id` string. -/
def list_messages (chat_id user_id : String) (db : Option Store) :
    Except HErr (List MessageDoc × Store) :=
  match db with
  | none => .error (.http 500 "Database not configured")
  | some s =>
    match parseObjectId chat_id with
    | .error e => .error e
    | .ok cid =>
      match s.chats.find? (fun c => c.oid == cid) with
      | none => .error (.http 404 "Chat not found")
      | some chat =>
        match parseObjectId chat.project_id with
        | .error e => .error e
        | .ok pid =>
          match s.projects.find? (fun p => p.oid == pid && p.user_id == user_id) with
          | none => .error (.http 403 "Forbidden")
          | some _ => .ok (get_message_documents s chat_id, s)

/-- POST /assistant/complete (src/main.py lines 162-171): no chat lookup and
no ownership check; build the echo reply and insert the two messages. -/
def assistant_complete (req : CompletionRequest) (user_id : String)
    (db : Option Store) : Except HErr (String × Store) :=
  match db with
  | none => .error (.http 500 "Database not configured")
  | some s =>
    let reply := "Echo: " ++ req.prompt
    let r1 := create_message_document s req.chat_id "user" req.prompt
    let r2 := create_message_document r1.2 req.chat_id "assistant" reply
    .ok (reply, r2.2)

/-- The store handle as GET /test sees it: possibly absent, with an optional
`name` attribute and a `list_collection_names()` call that may raise. -/
structure TestDb where
  name : Option String
  listCollectionNames : Except String (List String)

/-- Environment of GET /test: the global `db` handle plus the DATABASE_URL /
DATABASE_NAME environment variables. -/
structure TestEnv where
  dbHandle : Option TestDb
  databaseUrlSet : Bool
  databaseNameSet : Bool

/-- The diagnostic map returned by GET /test (src/main.py lines 176-183). -/
structure TestResponse where
  backend : String
  database : String
  database_url : Option String
  database_name : Option String
  connection_status : String
  collections : List String
  deriving DecidableEq, Repr

/-- GET /test (src/main.py lines 174-206): builds the diagnostic map; the
store probes sit inside try/except blocks, so a failing
`list_collection_names` is folded into the `database` field instead of
propagating. -/
def test_database (env : TestEnv) : Except String TestResponse :=
  let base : TestResponse :=
    ⟨"✅ Running", "❌ Not Available", none, none, "Not Connected", []⟩
  let r1 : TestResponse :=
    match env.dbHandle with
    | some d =>
      let nm := match d.name with | some n => n | none => "✅ Connected"
      let r := { base with database := "✅ Available",
                           database_url := some "✅ Configured",
                           database_name := some nm,
                           connection_status := "Connected" }
      match d.listCollectionNames with
      | .ok cols => { r with collections := cols.take 10,
                             database := "✅ Connected & Working" }
      | .error e => { r with database := "⚠️  Connected but Error: " ++ e.take 50 }
    | none => { base with database := "⚠️  Available but not initialized" }
  .ok { r1 with
        database_url := some (if env.databaseUrlSet then "✅ Set" else "❌ Not Set"),
        database_name := some (if env.databaseNameSet then "✅ Set" else "❌ Not Set") }

/-- The store state after a handler run: an aborted (error) request leaves the
store as it was; a successful one returns the updated store. -/
def stateAfter {α : Type} (r : Except HErr (α × Store)) (s : Store) : Store :=
  match r with
  | .ok p => p.2
  | .error _ => s

/-- Whether a handler run succeeded (an HTTP 2xx response). -/
def isOk {α : Type} : Except HErr α → Bool
  | .ok _ => true
  | .error _ => false

instance {ε α : Type} [DecidableEq ε] [DecidableEq α] : DecidableEq (Except ε α) := fun x y =>
  match x, y with
  | .ok a, .ok b =>
    if h : a = b then .isTrue (by rw [h]) else .isFalse (by intro hc; cases hc; exact h rfl)
  | .error a, .error b =>
    if h : a = b then .isTrue (by rw [h]) else .isFalse (by intro hc; cases hc; exact h rfl)
  | .ok _, .error _ => .isFalse (by intro hc; cases hc)
  | .error _, .ok _ => .isFalse (by intro hc; cases hc)

/-- The empty store, as after process start against a fresh database. -/
def sEmpty : Store := ⟨[], [], [], [], 0⟩

def oidA : String := "aaaaaaaaaaaaaaaaaaaaaaaa"

def oidB : String := "bbbbbbbbbbbbbbbbbbbbbbbb"

/-- A chat whose parent project is `oidB`. -/
def chatA : ChatDoc := ⟨oidA, oidB, "T"⟩

/-- A store holding a project owned by user "u2" and a chat under it: the
ownership chain fails for any other requesting user. -/
def sForeign : Store := ⟨[], [⟨oidB, "u2", "P", none⟩], [chatA], [], 7⟩

/-- `update_one` rewrites only name/avatar_url: the (oid, email) column of the
user collection is untouched. -/
theorem updateUserFields_pairs (req : LoginRequest) (l : List UserDoc) (tid : String) :
    (updateUserFields req l tid).map (fun d => (d.oid, d.email)) =
      l.map (fun d => (d.oid, d.email)) := by
  induction l with
  | nil => rfl
  | cons a t ih =>
    simp only [updateUserFields]
    split
    · simp
    · simp [ih]

/-- `update_one` inserts and deletes nothing. -/
theorem updateUserFields_length (req : LoginRequest) (l : List UserDoc) (tid : String) :
    (updateUserFields req l tid).length = l.length := by
  have h := congrArg List.length (updateUserFields_pairs req l tid)
  simpa using h

/-- Two user lists agreeing on the (oid, email) column agree on the id of the
first user found by email. -/
theorem find?_email_oid (l₁ l₂ : List UserDoc)
    (h : l₁.map (fun d => (d.oid, d.email)) = l₂.map (fun d => (d.oid, d.email)))
    (e : String) :
    (l₁.find? (fun d => d.email == e)).map (fun d => d.oid) =
      (l₂.find? (fun d => d.email == e)).map (fun d => d.oid) := by
  induction l₁ generalizing l₂ with
  | nil =>
    cases l₂ with
    | nil => rfl
    | cons b t₂ => simp at h
  | cons a t ih =>
    cases l₂ with
    | nil => simp at h
    | cons b t₂ =>
      simp only [List.map_cons, List.cons.injEq, Prod.mk.injEq] at h
      obtain ⟨⟨ho, he⟩, ht⟩ := h
      cases hpa : a.email == e with
      | true =>
        have hpb : (b.email == e) = true := by rw [← he]; exact hpa
        simp [List.find?, hpa, hpb, ho]
      | false =>
        have hpb : (b.email == e) = false := by rw [← he]; exact hpa
        simp only [List.find?, hpa, hpb]
        exact ih t₂ ht

/-- `find?` skips a prefix in which nothing matches. -/
theorem find?_append_of_none {α : Type} (p : α → Bool) (l₁ l₂ : List α)
    (h : l₁.find? p = none) : (l₁ ++ l₂).find? p = l₂.find? p := by
  induction l₁ with
  | nil => rfl
  | cons a t ih =>
    rw [List.cons_append]
    cases hpa : p a with
    | true => simp [List.find?, hpa] at h
    | false =>
      simp only [List.find?, hpa] at h ⊢
      exact ih h

/-- If some user has the target id, the updated list holds a user with that id
carrying the new name and avatar_url. -/
theorem updateUserFields_mem (req : LoginRequest) (l : List UserDoc) (tid : String)
    (h : ∃ x ∈ l, x.oid = tid) :
    ∃ d ∈ updateUserFields req l tid,
      d.oid = tid ∧ d.name = req.name ∧ d.avatar_url = req.avatar_url := by
  induction l with
  | nil => simp at h
  | cons a t ih =>
    by_cases ha : a.oid = tid
    · refine ⟨{ a with name := req.name, avatar_url := req.avatar_url }, ?_, ha, rfl, rfl⟩
      simp [updateUserFields, ha]
    · obtain ⟨x, hx, hxo⟩ := h
      have hxt : x ∈ t := by
        cases hx with
        | head => exact absurd hxo ha
        | tail _ h' => exact h'
      obtain ⟨d, hd, hprops⟩ := ih ⟨x, hxt, hxo⟩
      refine ⟨d, ?_, hprops⟩
      simp only [updateUserFields]
      rw [if_neg (by simpa using ha)]
      exact List.mem_cons_of_mem _ hd

/-- Claim C8: every data endpoint (login, project, chat, message and assistant
operations), run with the store handle unconfigured (`db is None`), fails with
the 500 "Database not configured" error and touches no store. -/
theorem db_unconfigured_500 (r : LoginRequest) (p : ProjectCreate) (c : ChatCreate)
    (m : MessageCreate) (cr : CompletionRequest) (uid pid cid : String) :
    login r none = .error (.http 500 "Database not configured") ∧
    create_project p uid none = .error (.http 500 "Database not configured") ∧
    list_projects uid none = .error (.http 500 "Database not configured") ∧
    create_chat c uid none = .error (.http 500 "Database not configured") ∧
    list_chats pid uid none = .error (.http 500 "Database not configured") ∧
    create_message m uid none = .error (.http 500 "Database not configured") ∧
    list_messages cid uid none = .error (.http 500 "Database not configured") ∧
    assistant_complete cr uid none = .error (.http 500 "Database not configured") :=
  ⟨rfl, rfl, rfl, rfl, rfl, rfl, rfl, rfl⟩

/-- Claim C10: the GET /test diagnostic endpoint is total: for every
environment — store handle missing, or a store whose `list_collection_names`
raises — it returns a diagnostic map (never an error), and the map reports the
backend as running. -/
theorem test_database_total (env : TestEnv) :
    ∃ r, test_database env = .ok r ∧ r.backend = "✅ Running" := by
  obtain ⟨dbh, u, n⟩ := env
  cases dbh with
  | none => exact ⟨_, rfl, rfl⟩
  | some d =>
    obtain ⟨nm, lc⟩ := d
    cases nm <;> cases lc <;> exact ⟨_, rfl, rfl⟩

/-- Claim C5: for every prompt, POST /assistant/complete replies with
"Echo: " ++ prompt, and the messages of the given chat afterwards are exactly
the previous ones followed by the user message (content = prompt) and then the
assistant message (content = reply), in that creation order. -/
theorem assistant_complete_spec (s : Store) (req : CompletionRequest) (uid : String) :
    ∃ s', assistant_complete req uid (some s) = .ok ("Echo: " ++ req.prompt, s') ∧
      s'.messages = s.messages ++
        [⟨genId s.nextId, req.chat_id, "user", req.prompt⟩,
         ⟨genId (s.nextId + 1), req.chat_id, "assistant", "Echo: " ++ req.prompt⟩] ∧
      get_message_documents s' req.chat_id = get_message_documents s req.chat_id ++
        [⟨genId s.nextId, req.chat_id, "user", req.prompt⟩,
         ⟨genId (s.nextId + 1), req.chat_id, "assistant", "Echo: " ++ req.prompt⟩] := by
  refine ⟨_, rfl, ?_, ?_⟩
  · simp [assistant_complete, create_message_document]
  · simp [get_message_documents, assistant_complete, create_message_document,
      List.filter_append, List.filter]

/-- Claim C1 counterexample: POST /assistant/complete persists messages for a
chat_id that names no chat at all — the store holds no chats, yet the call
succeeds and two message records are written, with no NotFound. -/
theorem assistant_persists_without_chat_cex :
    sEmpty.chats = [] ∧
    isOk (assistant_complete ⟨oidA, "hi"⟩ "u1" (some sEmpty)) = true ∧
    (stateAfter (assistant_complete ⟨oidA, "hi"⟩ "u1" (some sEmpty)) sEmpty).messages.length = 2 := by
  decide

/-- Claim C1 (amended): for POST /messages the message is persisted only if
the chat exists and its project is owned by the requester, and an absent chat
yields 404 "Chat not found" with the store unchanged; POST /assistant/complete
performs no such check and always persists its two messages. -/
theorem message_creation_guard (s : Store) (m : MessageCreate) (uid : String)
    (hv : isValidObjectId m.chat_id = true) :
    (s.chats.find? (fun c => c.oid == normId m.chat_id) = none →
        create_message m uid (some s) = .error (.http 404 "Chat not found") ∧
        stateAfter (create_message m uid (some s)) s = s) ∧
    (∀ out s', create_message m uid (some s) = .ok (out, s') →
        ∃ c, s.chats.find? (fun c' => c'.oid == normId m.chat_id) = some c ∧
          ∃ p, s.projects.find? (fun p' => p'.oid == normId c.project_id &&
            p'.user_id == uid) = some p) ∧
    (∀ cr : CompletionRequest, isOk (assistant_complete cr uid (some s)) = true) := by
  refine ⟨?_, ?_, fun cr => rfl⟩
  · intro hnone
    constructor <;> simp [create_message, parseObjectId, hv, hnone, stateAfter]
  · intro out s' h
    simp only [create_message, parseObjectId, hv, if_true] at h
    cases hc : s.chats.find? (fun c => c.oid == normId m.chat_id) with
    | none => rw [hc] at h; simp at h
    | some chat =>
      rw [hc] at h
      by_cases hvp : isValidObjectId chat.project_id = true
      · simp only [hvp, if_true] at h
        cases hp : s.projects.find? (fun p => p.oid == normId chat.project_id &&
            p.user_id == uid) with
        | none => rw [hp] at h; simp at h
        | some p => exact ⟨chat, rfl, p, hp⟩
      · simp [hvp] at h

/-- Claim C2 counterexample: GET /projects with the malformed id "not-an-id"
as user_id does not fail with a 400-class InvalidId error — it reaches the
store and succeeds with an empty 200 result; and where a malformed
project_id does abort (POST /chats), the error is the unhandled InvalidId
exception (a 500), not the 400 "Invalid ID" of the unused ObjectIdStr
helper. -/
theorem malformed_id_cex :
    list_projects "not-an-id" (some sEmpty) = .ok ([], sEmpty) ∧
    create_chat ⟨"not-an-id", "T"⟩ "u1" (some sEmpty) = .error (.exn "InvalidId") ∧
    HErr.exn "InvalidId" ≠ HErr.http 400 "Invalid ID" := by
  decide

/-- Claim C2 (amended): a malformed project_id/chat_id makes the bare
ObjectId conversion raise an unhandled InvalidId exception (500-class, not the
400-class InvalidId of the never-used ObjectIdStr validator) before any store
operation with that id, leaving the store unchanged; user_id is never
format-validated: GET /projects succeeds with any user_id string. -/
theorem malformed_objectid_behavior (s : Store) (c : ChatCreate) (m : MessageCreate)
    (uid pid cid : String)
    (h1 : isValidObjectId c.project_id = false) (h2 : isValidObjectId pid = false)
    (h3 : isValidObjectId m.chat_id = false) (h4 : isValidObjectId cid = false) :
    create_chat c uid (some s) = .error (.exn "InvalidId") ∧
    stateAfter (create_chat c uid (some s)) s = s ∧
    list_chats pid uid (some s) = .error (.exn "InvalidId") ∧
    create_message m uid (some s) = .error (.exn "InvalidId") ∧
    stateAfter (create_message m uid (some s)) s = s ∧
    list_messages cid uid (some s) = .error (.exn "InvalidId") ∧
    isOk (list_projects uid (some s)) = true ∧
    ObjectIdStr_oid cid = .error (.http 400 "Invalid ID") := by
  refine ⟨?_, ?_, ?_, ?_, ?_, ?_, rfl, ?_⟩ <;>
    simp [create_chat, list_chats, create_message, list_messages, parseObjectId,
      ObjectIdStr_oid, stateAfter, h1, h2, h3, h4]

/-- Claim C3: message-level access (POST /messages and GET /messages) fails
404 "Chat not found" when no chat has the given id, and 403 "Forbidden" when
the chat exists but its project is not owned by the requesting user; the two
outcomes are distinct. -/
theorem message_access_errors (s : Store) (m : MessageCreate) (uid : String)
    (hv : isValidObjectId m.chat_id = true) :
    (s.chats.find? (fun c => c.oid == normId m.chat_id) = none →
        create_message m uid (some s) = .error (.http 404 "Chat not found") ∧
        list_messages m.chat_id uid (some s) = .error (.http 404 "Chat not found")) ∧
    (∀ c, s.chats.find? (fun c' => c'.oid == normId m.chat_id) = some c →
        isValidObjectId c.project_id = true →
        s.projects.find? (fun p => p.oid == normId c.project_id && p.user_id == uid) = none →
        create_message m uid (some s) = .error (.http 403 "Forbidden") ∧
        list_messages m.chat_id uid (some s) = .error (.http 403 "Forbidden")) ∧
    HErr.http 404 "Chat not found" ≠ HErr.http 403 "Forbidden" := by
  refine ⟨?_, ?_, by decide⟩
  · intro hnone
    constructor <;> simp [create_message, list_messages, parseObjectId, hv, hnone]
  · intro c hc hvp hp
    constructor <;>
      simp [create_message, list_messages, parseObjectId, hv, hc, hvp, hp]

/-- Claim C4: project-level access (POST /chats and GET /chats) reports the
same 404 "Project not found" whenever no project carries both the given id and
the requesting user — covering a missing project and a project owned by a
different user alike — so listing chats of a foreign project is never an
empty-but-200 result. -/
theorem project_access_notfound (s : Store) (payload : ChatCreate) (uid : String)
    (hv : isValidObjectId payload.project_id = true)
    (hnone : s.projects.find? (fun p => p.oid == normId payload.project_id &&
      p.user_id == uid) = none) :
    create_chat payload uid (some s) = .error (.http 404 "Project not found") ∧
    list_chats payload.project_id uid (some s) = .error (.http 404 "Project not found") ∧
    isOk (list_chats payload.project_id uid (some s)) = false := by
  refine ⟨?_, ?_, ?_⟩ <;>
    simp [create_chat, list_chats, parseObjectId, hv, hnone, isOk]

/-- Claim C7: creating a chat under a project that exists but is owned by a
different user fails with 404 "Project not found" and creates no chat record:
the store is unchanged. -/
theorem create_chat_foreign_project (s : Store) (payload : ChatCreate) (uid : String)
    (hv : isValidObjectId payload.project_id = true)
    (hexists : ∃ p ∈ s.projects, p.oid = normId payload.project_id ∧ p.user_id ≠ uid)
    (hnone : s.projects.find? (fun p => p.oid == normId payload.project_id &&
      p.user_id == uid) = none) :
    create_chat payload uid (some s) = .error (.http 404 "Project not found") ∧
    stateAfter (create_chat payload uid (some s)) s = s := by
  constructor <;> simp [create_chat, parseObjectId, hv, hnone, stateAfter]

/-- Claim C9: on the login upsert path (a user with the given email already
exists), login returns that user's id and rewrites only the name and
avatar_url columns — every user keeps its id and email, the matched user
carries the request's name and avatar_url (null when the request omits it) —
and the other collections are untouched. -/
theorem login_upsert_frame (s : Store) (req : LoginRequest) (u : UserDoc)
    (hf : s.users.find? (fun d => d.email == req.email) = some u) :
    ∃ s', login req (some s) = .ok (u.oid, s') ∧
      s'.users.map (fun d => (d.oid, d.email)) = s.users.map (fun d => (d.oid, d.email)) ∧
      (∃ d ∈ s'.users, d.oid = u.oid ∧ d.name = req.name ∧ d.avatar_url = req.avatar_url) ∧
      s'.projects = s.projects ∧ s'.chats = s.chats ∧ s'.messages = s.messages := by
  refine ⟨{ s with users := updateUserFields req s.users u.oid }, ?_, ?_, ?_, rfl, rfl, rfl⟩
  · simp [login, hf]
  · exact updateUserFields_pairs req s.users u.oid
  · exact updateUserFields_mem req s.users u.oid
      ⟨u, List.mem_of_find?_eq_some hf, rfl⟩

/-- Claim C6: login is idempotent on email — after a first login returned
`id1`, a second login with the same email (and any name/avatar) also returns
`id1` and leaves the number of user records unchanged: the existing user is
updated in place, no duplicate is created. -/
theorem login_idempotent_email (s0 : Store) (r1 r2 : LoginRequest)
    (he : r2.email = r1.email) (id1 : String) (s1 : Store)
    (h1 : login r1 (some s0) = .ok (id1, s1)) :
    ∃ s2, login r2 (some s1) = .ok (id1, s2) ∧
      s2.users.length = s1.users.length := by
  cases hf : s0.users.find? (fun d => d.email == r1.email) with
  | some u =>
    simp only [login, hf] at h1
    rw [Except.ok.injEq, Prod.mk.injEq] at h1
    obtain ⟨hid, hs⟩ := h1
    have hpairs : s1.users.map (fun d => (d.oid, d.email)) =
        s0.users.map (fun d => (d.oid, d.email)) := by
      rw [← hs]
      exact updateUserFields_pairs r1 s0.users u.oid
    have hfind := find?_email_oid s1.users s0.users hpairs r1.email
    rw [hf] at hfind
    cases hg : s1.users.find? (fun d => d.email == r1.email) with
    | none => rw [hg] at hfind; simp at hfind
    | some u' =>
      rw [hg] at hfind
      simp only [Option.map_some'] at hfind
      rw [Option.some.injEq] at hfind
      refine ⟨{ s1 with users := updateUserFields r2 s1.users u'.oid }, ?_, ?_⟩
      · have hg2 : s1.users.find? (fun d => d.email == r2.email) = some u' := by
          rw [he]; exact hg
        simp [login, hg2, hfind, ← hid]
      · exact updateUserFields_length r2 s1.users u'.oid
  | none =>
    simp only [login, hf, create_user_document] at h1
    rw [Except.ok.injEq, Prod.mk.injEq] at h1
    obtain ⟨hid, hs⟩ := h1
    have hfind2 : s1.users.find? (fun d => d.email == r2.email) =
        some ⟨genId s0.nextId, r1.name, r1.email, r1.avatar_url⟩ := by
      rw [← hs]
      simp only [he]
      rw [find?_append_of_none _ _ _ hf]
      simp [List.find?]
    refine ⟨{ s1 with users := updateUserFields r2 s1.users (genId s0.nextId) }, ?_, ?_⟩
    · simp [login, hfind2, ← hid]
    · exact updateUserFields_length r2 s1.users (genId s0.nextId)

/-- A store holding one user record, for exercising the upsert path. -/
def sUser : Store := ⟨[⟨oidA, "Old", "e@x.com", some "pic"⟩], [], [], [], 5⟩

/-- The store after the first login of the idempotence scenario. -/
def sAlice : Store := ⟨[⟨"000000000000000000000000", "Alice", "a@x.com", none⟩], [], [], [], 1⟩

theorem message_creation_guard_witness :
    (create_message ⟨oidB, "user", "hi"⟩ "u1" (some sEmpty) =
        .error (.http 404 "Chat not found") ∧
     stateAfter (create_message ⟨oidB, "user", "hi"⟩ "u1" (some sEmpty)) sEmpty = sEmpty) ∧
    isOk (assistant_complete ⟨oidB, "yo"⟩ "u1" (some sEmpty)) = true :=
  ⟨(message_creation_guard sEmpty ⟨oidB, "user", "hi"⟩ "u1" (by decide)).1 (by decide),
   (message_creation_guard sEmpty ⟨oidB, "user", "hi"⟩ "u1" (by decide)).2.2 ⟨oidB, "yo"⟩⟩

theorem malformed_objectid_behavior_witness :
    create_chat ⟨"x", "T"⟩ "u1" (some sEmpty) = .error (.exn "InvalidId") ∧
    stateAfter (create_chat ⟨"x", "T"⟩ "u1" (some sEmpty)) sEmpty = sEmpty ∧
    list_chats "x" "u1" (some sEmpty) = .error (.exn "InvalidId") ∧
    create_message ⟨"x", "user", "hi"⟩ "u1" (some sEmpty) = .error (.exn "InvalidId") ∧
    stateAfter (create_message ⟨"x", "user", "hi"⟩ "u1" (some sEmpty)) sEmpty = sEmpty ∧
    list_messages "x" "u1" (some sEmpty) = .error (.exn "InvalidId") ∧
    isOk (list_projects "u1" (some sEmpty)) = true ∧
    ObjectIdStr_oid "x" = .error (.http 400 "Invalid ID") :=
  malformed_objectid_behavior sEmpty ⟨"x", "T"⟩ ⟨"x", "user", "hi"⟩ "u1" "x" "x"
    (by decide) (by decide) (by decide) (by decide)

theorem message_access_errors_witness :
    (create_message ⟨oidA, "user", "hi"⟩ "u1" (some sEmpty) =
        .error (.http 404 "Chat not found") ∧
     list_messages oidA "u1" (some sEmpty) = .error (.http 404 "Chat not found")) ∧
    (create_message ⟨oidA, "user", "hi"⟩ "u1" (some sForeign) =
        .error (.http 403 "Forbidden") ∧
     list_messages oidA "u1" (some sForeign) = .error (.http 403 "Forbidden")) :=
  ⟨(message_access_errors sEmpty ⟨oidA, "user", "hi"⟩ "u1" (by decide)).1 (by decide),
   (message_access_errors sForeign ⟨oidA, "user", "hi"⟩ "u1" (by decide)).2.1 chatA
     (by decide) (by decide) (by decide)⟩

theorem project_access_notfound_witness :
    (create_chat ⟨oidB, "T"⟩ "u1" (some sEmpty) = .error (.http 404 "Project not found") ∧
     list_chats oidB "u1" (some sEmpty) = .error (.http 404 "Project not found") ∧
     isOk (list_chats oidB "u1" (some sEmpty)) = false) ∧
    (create_chat ⟨oidB, "T"⟩ "u1" (some sForeign) = .error (.http 404 "Project not found") ∧
     list_chats oidB "u1" (some sForeign) = .error (.http 404 "Project not found") ∧
     isOk (list_chats oidB "u1" (some sForeign)) = false) :=
  ⟨project_access_notfound sEmpty ⟨oidB, "T"⟩ "u1" (by decide) (by decide),
   project_access_notfound sForeign ⟨oidB, "T"⟩ "u1" (by decide) (by decide)⟩

theorem login_idempotent_email_witness :
    ∃ s2, login ⟨"Bob", "a@x.com", some "pic"⟩ (some sAlice) =
        .ok ("000000000000000000000000", s2) ∧
      s2.users.length = sAlice.users.length :=
  login_idempotent_email sEmpty ⟨"Alice", "a@x.com", none⟩ ⟨"Bob", "a@x.com", some "pic"⟩
    rfl "000000000000000000000000" sAlice (by decide)

theorem create_chat_foreign_project_witness :
    create_chat ⟨oidB, "T"⟩ "u1" (some sForeign) = .error (.http 404 "Project not found") ∧
    stateAfter (create_chat ⟨oidB, "T"⟩ "u1" (some sForeign)) sForeign = sForeign :=
  create_chat_foreign_project sForeign ⟨oidB, "T"⟩ "u1" (by decide) (by decide) (by decide)

theorem login_upsert_frame_witness :
    ∃ s', login ⟨"New", "e@x.com", none⟩ (some sUser) = .ok (oidA, s') ∧
      s'.users.map (fun d => (d.oid, d.email)) =
        sUser.users.map (fun d => (d.oid, d.email)) ∧
      (∃ d ∈ s'.users, d.oid = oidA ∧ d.name = "New" ∧ d.avatar_url = none) ∧
      s'.projects = sUser.projects ∧ s'.chats = sUser.chats ∧ s'.messages = sUser.messages :=
  login_upsert_frame sUser ⟨"New", "e@x.com", none⟩ ⟨oidA, "Old", "e@x.com", some "pic"⟩
    (by decide)
